import Mathlib

/-!
Verification of the two frontend modules of this repository:
the group-locations view (src/sentry/static/sentry/app/views/groupLocations/index.jsx)
and the withRepositories data-fetch decorator.

The view is modelled as a state machine on its React component state
(loading, error, data) with the two response callbacks of fetchData as
transitions, and render as a pure function from state to a rendered output.
The country-code table is an external static lookup (a JS object lookup
returns undefined for absent keys, modelled as Option), so render and the
series computation are parameterised over it.
-/

/-- One entry of the topValues array of the tag-aggregation response body. -/
structure TagTopValue where
  value : String
  count : Nat
deriving DecidableEq, Repr

/-- The JSON body returned by GET /issues/:groupId/tags/user.location/. -/
structure ApiResponse where
  topValues : List TagTopValue
deriving DecidableEq, Repr

/-- A latitude/longitude pair from the country-code table. -/
abbrev Coords := Int × Int

/-- The React state of the GroupLocations component: loading flag, error
flag, and the stored response body (null modelled as none). -/
structure GLState where
  loading : Bool
  error : Bool
  data : Option ApiResponse
deriving DecidableEq, Repr

/-- getInitialState of GroupLocations: loading true, error false, data null. -/
def getInitialState : GLState :=
  { loading := true, error := false, data := none }

/-- The synchronous setState at the top of fetchData: sets loading true and
error false; React setState merges, so data is left unchanged. -/
def fetchDataStart (s : GLState) : GLState :=
  { s with loading := true, error := false }

/-- The success callback of the request in fetchData: stores the raw
response body, clears error, clears loading (React setState merge). -/
def successCallback (d : ApiResponse) (s : GLState) : GLState :=
  { s with data := some d, error := false, loading := false }

/-- The error callback of the request in fetchData: sets error true and
clears loading; data is not mentioned in the setState, so it is unchanged. -/
def errorCallback (s : GLState) : GLState :=
  { s with error := true, loading := false }

/-- The component state right after componentWillMount ran fetchData and the
request was dispatched, before any response callback. -/
def mountedState : GLState :=
  fetchDataStart getInitialState

/-- The reachable component states of GroupLocations in this excerpt:
fetchData is invoked only from componentWillMount, and the single request
invokes exactly one of the two callbacks, so the lifecycle is
initial, mounted, then either a success state or the failure state. -/
inductive GLReachable : GLState → Prop where
  | start : GLReachable getInitialState
  | mounted : GLReachable mountedState
  | succeeded (d : ApiResponse) : GLReachable (successCallback d mountedState)
  | failed : GLReachable (errorCallback mountedState)

/-- The series built on line 59 of index.jsx: each topValues entry is mapped,
in order, to the pair of the country-code lookup of its value and its count. -/
def mkSeries (cc : String → Option Coords) (tvs : List TagTopValue) :
    List (Option Coords × Nat) :=
  tvs.map fun tag => (cc tag.value, tag.count)

/-- What render returns, abstracted to the three possible React elements. -/
inductive RenderOutput where
  | loadingIndicator
  | loadingError
  | geoMap (series : List (Option Coords × Nat))
deriving DecidableEq, Repr

/-- render of GroupLocations: spinner while loading, error panel on error,
otherwise it dereferences this.state.data.topValues and maps it to a series.
Dereferencing null data would throw in JS; that case is modelled as none. -/
def render (cc : String → Option Coords) (s : GLState) : Option RenderOutput :=
  if s.loading then some .loadingIndicator
  else if s.error then some .loadingError
  else
    match s.data with
    | none => none
    | some d => some (.geoMap (mkSeries cc d.topValues))

/-- C5: the initial state of the view is exactly loading=true, error=false,
data=null, and every render before any response callback has run (that is,
at the initial state and at the mounted state, the only two pre-response
states of the lifecycle) shows the loading indicator. -/
theorem initial_state_and_pre_response_render :
    getInitialState = { loading := true, error := false, data := none } ∧
    ∀ cc : String → Option Coords,
      render cc getInitialState = some .loadingIndicator ∧
      render cc mountedState = some .loadingIndicator := by
  refine ⟨rfl, fun cc => ⟨rfl, rfl⟩⟩

/-- C4: for every successful response, the success handler stores the raw
body unchanged in data, sets error to false and loading to false; this holds
whatever state the component was in when the callback ran. -/
theorem success_callback_stores_raw_body (d : ApiResponse) (s : GLState) :
    successCallback d s = { loading := false, error := false, data := some d } :=
  rfl

/-- C1: for every failing request, the final state is exactly
loading=false, error=true, data=null. The error callback itself leaves data
untouched (React setState merge), but every reachable state at which a
response can arrive (the pre-response states, characterised by loading=true)
has data=null, since the single fetch is issued from componentWillMount and
no success ran before the failure; hence the final state is as claimed
regardless of the pre-response state. -/
theorem failing_request_final_state (s : GLState)
    (hr : GLReachable s) (hl : s.loading = true) :
    errorCallback s = { loading := false, error := true, data := none } := by
  cases hr with
  | start => rfl
  | mounted => rfl
  | succeeded d => simp [successCallback, mountedState, fetchDataStart, getInitialState] at hl
  | failed => simp [errorCallback, mountedState, fetchDataStart, getInitialState] at hl

/-- Witness for C1 at the mounted (pre-response) state. -/
theorem failing_request_final_state_witness :
    errorCallback mountedState = { loading := false, error := true, data := none } :=
  failing_request_final_state mountedState GLReachable.mounted rfl

/-- C8: in every reachable state of the view, loading=false and error=false
imply data is non-null, so the render branch that dereferences
this.state.data.topValues never dereferences null: render never hits the
crash case. -/
theorem loaded_state_data_nonnull (s : GLState) (cc : String → Option Coords)
    (hr : GLReachable s) (hl : s.loading = false) (he : s.error = false) :
    s.data ≠ none ∧ render cc s ≠ none := by
  cases hr with
  | start => simp [getInitialState] at hl
  | mounted => simp [mountedState, fetchDataStart, getInitialState] at hl
  | succeeded d =>
      refine ⟨by simp [successCallback], ?_⟩
      simp [render, successCallback, mountedState, fetchDataStart, getInitialState]
  | failed => simp [errorCallback, mountedState, fetchDataStart, getInitialState] at he

/-- Witness for C8 at a concrete success state with an empty lookup table. -/
theorem loaded_state_data_nonnull_witness :
    (successCallback ⟨[]⟩ mountedState).data ≠ none ∧
    render (fun _ => none) (successCallback ⟨[]⟩ mountedState) ≠ none :=
  loaded_state_data_nonnull (successCallback ⟨[]⟩ mountedState)
    (fun _ => none) (GLReachable.succeeded ⟨[]⟩) rfl rfl

/-- C3: for every successful tag response, the view renders the series
obtained by mapping each topValues entry, in order, to the pair of its
country-code lookup and its count; in particular, for
topValues = [(US,5),(FR,2)] with the table mapping US and FR to coordinates,
the rendered series is [(coordsUS,5),(coordsFR,2)]. -/
theorem success_renders_mapped_series (cc : String → Option Coords)
    (cUS cFR : Coords) (hUS : cc "US" = some cUS) (hFR : cc "FR" = some cFR) :
    (∀ d : ApiResponse,
      render cc (successCallback d mountedState) =
        some (.geoMap (d.topValues.map fun tag => (cc tag.value, tag.count)))) ∧
    render cc (successCallback ⟨[⟨"US", 5⟩, ⟨"FR", 2⟩]⟩ mountedState) =
      some (.geoMap [(some cUS, 5), (some cFR, 2)]) := by
  constructor
  · intro d
    simp [render, successCallback, mkSeries]
  · simp [render, successCallback, mkSeries, hUS, hFR]

/-- Witness for C3 with a concrete two-entry country table. -/
theorem success_renders_mapped_series_witness :
    render (fun v => if v = "US" then some (38, -97) else if v = "FR" then some (46, 2) else none)
        (successCallback ⟨[⟨"US", 5⟩, ⟨"FR", 2⟩]⟩ mountedState) =
      some (.geoMap [(some (38, -97), 5), (some (46, 2), 2)]) :=
  (success_renders_mapped_series
    (fun v => if v = "US" then some (38, -97) else if v = "FR" then some (46, 2) else none)
    (38, -97) (46, 2) rfl rfl).2

/-- C9: the rendered series has exactly the length of topValues, and a tag
value absent from the country table is not filtered out: it contributes an
entry whose first component is undefined (none), paired with its count. -/
theorem series_preserves_length_and_unknown_values
    (cc : String → Option Coords) (tvs : List TagTopValue) :
    (mkSeries cc tvs).length = tvs.length ∧
    ∀ tag ∈ tvs, cc tag.value = none →
      ((none : Option Coords), tag.count) ∈ mkSeries cc tvs := by
  constructor
  · simp [mkSeries]
  · intro tag hmem hcc
    simp only [mkSeries, List.mem_map]
    exact ⟨tag, hmem, by rw [hcc]⟩

/-- Witness for C9: a value outside the table keeps its slot in the series. -/
theorem series_preserves_length_and_unknown_values_witness :
    (mkSeries (fun v => if v = "US" then some (38, -97) else none)
        [⟨"US", 5⟩, ⟨"ZZ", 9⟩]).length = 2 ∧
    ((none : Option Coords), 9) ∈
      mkSeries (fun v => if v = "US" then some (38, -97) else none)
        [⟨"US", 5⟩, ⟨"ZZ", 9⟩] := by
  have h := series_preserves_length_and_unknown_values
    (fun v => if v = "US" then some (38, -97) else none) [⟨"US", 5⟩, ⟨"ZZ", 9⟩]
  exact ⟨h.1, h.2 ⟨"ZZ", 9⟩ (by simp) (by simp)⟩

/-!
The withRepositories decorator (src/unnamed/part_000) and its shared store.

The RepositoryStore implementation is outside this excerpt; only its get
interface and its mutable state fields are visible. fetchRepos writes
RepositoryStore.state.repositoriesLoading and RepositoryStore.state.orgSlug
directly, so the store state is a single flat record carrying one orgSlug,
and get(key) answers with the three fetch-state fields when the stored
orgSlug matches the key and with all-undefined fields otherwise.
-/

/-- A repository entity; opaque to this layer, modelled by its name. -/
abbrev Repository := String

/-- The triple of fetch-state fields the store exposes for a key and the
decorator injects as props; undefined fields are modelled as none. -/
structure RepoData where
  repositories : Option (List Repository)
  repositoriesLoading : Option Bool
  repositoriesError : Option String
deriving DecidableEq, Repr

/-- The mutable state of RepositoryStore: a single entry identified by the
orgSlug field, acknowledged by the direct writes of fetchRepos to
state.repositoriesLoading and state.orgSlug. -/
structure RepoStoreState where
  orgSlug : Option String
  repositories : Option (List Repository)
  repositoriesLoading : Option Bool
  repositoriesError : Option String
deriving DecidableEq, Repr

/-- Modelled from the spec: RepositoryStore.get is outside this excerpt.
Spec section 6 fixes its contract, get(key) yields the optional fields
repositories, repositoriesLoading, repositoriesError, and records that the
decorator writes loading=true and orgSlug=key directly on the store state;
so get answers with the stored fields when the stored orgSlug equals the
key, and with undefined fields for any other key. -/
def RepositoryStore.get (st : RepoStoreState) (key : String) : RepoData :=
  if st.orgSlug = some key then
    { repositories := st.repositories,
      repositoriesLoading := st.repositoriesLoading,
      repositoriesError := st.repositoriesError }
  else
    { repositories := none, repositoriesLoading := none, repositoriesError := none }

/-- JS truthiness of the repositories field inside the guard of fetchRepos:
a Repository[] | undefined value is falsy exactly when it is undefined (an
empty array is truthy). -/
def jsFalsyRepos : Option (List Repository) → Bool
  | none => true
  | some _ => false

/-- JS truthiness of the repositoriesLoading field inside the guard of
fetchRepos: a boolean | undefined value is falsy when it is undefined or
false. -/
def jsFalsyLoading : Option Bool → Bool
  | none => true
  | some b => !b

/-- Result of one fetchRepos call: the store state after the call and
whether getRepositories (the fetch) was invoked. -/
structure FetchResult where
  store : RepoStoreState
  fetchIssued : Bool
deriving DecidableEq, Repr

/-- fetchRepos of the decorator: reads the store entry for orgSlug; when
neither repositories nor repositoriesLoading is truthy, it synchronously
sets repositoriesLoading=true and orgSlug on the store state and then calls
getRepositories; otherwise it does nothing. The whole function is
synchronous JS, so it executes atomically on the event loop. -/
def fetchRepos (orgSlug : String) (st : RepoStoreState) : FetchResult :=
  if jsFalsyRepos (RepositoryStore.get st orgSlug).repositories &&
      jsFalsyLoading (RepositoryStore.get st orgSlug).repositoriesLoading then
    { store := { st with repositoriesLoading := some true, orgSlug := some orgSlug },
      fetchIssued := true }
  else
    { store := st, fetchIssued := false }

/-- getInitialState of the decorator: three undefined fields overridden by
the spread of the store entry for orgSlug; since get always yields all three
keys, the displayed state is exactly the entry. -/
def decoratorInitialState (st : RepoStoreState) (orgSlug : String) : RepoData :=
  RepositoryStore.get st orgSlug

/-- onStoreUpdate of the decorator: on any store notification it re-reads
the entry for its own orgSlug and calls setState with the spread of that
entry. The spread object carries all three keys (get always yields them, at
worst with undefined values), so the merge overwrites every displayed field
and the new displayed state is exactly the freshly read entry. -/
def onStoreUpdate (st : RepoStoreState) (orgSlug : String)
    (_display : RepoData) : RepoData :=
  RepositoryStore.get st orgSlug

/-- The repositories field is falsy in the JS guard exactly when undefined. -/
theorem jsFalsyRepos_eq_true (r : Option (List Repository)) :
    jsFalsyRepos r = true ↔ r = none := by
  cases r <;> simp [jsFalsyRepos]

/-- The loading field is falsy in the JS guard exactly when it is not true. -/
theorem jsFalsyLoading_eq_true (l : Option Bool) :
    jsFalsyLoading l = true ↔ l ≠ some true := by
  cases l with
  | none => simp [jsFalsyLoading]
  | some b => cases b <;> simp [jsFalsyLoading]

/-- C6: on mount, the decorator fetches if and only if the entry for its
orgSlug has neither repositories data nor the loading flag set to true
(a present-but-false flag is falsy in the JS guard, hence also fetches);
when it fetches it first synchronously marks the store entry as loading for
that key, and otherwise it leaves the store untouched and issues no fetch. -/
theorem fetch_iff_entry_unfetched (st : RepoStoreState) (k : String) :
    ((fetchRepos k st).fetchIssued = true ↔
      (RepositoryStore.get st k).repositories = none ∧
      (RepositoryStore.get st k).repositoriesLoading ≠ some true) ∧
    ((fetchRepos k st).fetchIssued = true →
      (fetchRepos k st).store =
        { st with repositoriesLoading := some true, orgSlug := some k } ∧
      (RepositoryStore.get (fetchRepos k st).store k).repositoriesLoading = some true) ∧
    ((fetchRepos k st).fetchIssued = false → (fetchRepos k st).store = st) := by
  by_cases hc : (jsFalsyRepos (RepositoryStore.get st k).repositories &&
      jsFalsyLoading (RepositoryStore.get st k).repositoriesLoading) = true
  · have hguard : fetchRepos k st =
        { store := { st with repositoriesLoading := some true, orgSlug := some k },
          fetchIssued := true } := by
      unfold fetchRepos
      rw [if_pos hc]
    rw [Bool.and_eq_true, jsFalsyRepos_eq_true, jsFalsyLoading_eq_true] at hc
    refine ⟨?_, ?_, ?_⟩
    · rw [hguard]
      simpa using hc
    · intro _
      refine ⟨by rw [hguard], ?_⟩
      rw [hguard]
      simp [RepositoryStore.get]
    · intro hf
      rw [hguard] at hf
      simp at hf
  · have hguard : fetchRepos k st = { store := st, fetchIssued := false } := by
      unfold fetchRepos
      rw [if_neg hc]
    rw [Bool.and_eq_true, jsFalsyRepos_eq_true, jsFalsyLoading_eq_true] at hc
    refine ⟨?_, ?_, ?_⟩
    · rw [hguard]
      simpa using hc
    · intro hf
      rw [hguard] at hf
      simp at hf
    · intro _
      rw [hguard]

/-- Witness for C6 on the empty store: the fetch fires and marks loading. -/
theorem fetch_iff_entry_unfetched_witness :
    (fetchRepos "org-a" ⟨none, none, none, none⟩).fetchIssued = true ∧
    (fetchRepos "org-a" ⟨none, none, none, none⟩).store =
      ⟨some "org-a", none, some true, none⟩ := by
  have h := fetch_iff_entry_unfetched ⟨none, none, none, none⟩ "org-a"
  have hf : (fetchRepos "org-a" ⟨none, none, none, none⟩).fetchIssued = true :=
    h.1.mpr (by constructor <;> simp [RepositoryStore.get])
  exact ⟨hf, (h.2.1 hf).1⟩

/-- C2: in every event-loop schedule where two decorator instances mount
for the same orgSlug before the first response resolves, exactly one fetch
is issued. Each mount runs fetchRepos atomically (synchronous JS), so any
such schedule is two sequential fetchRepos calls on a store whose entry for
the key is still unfetched; the first call issues the fetch and sets the
loading flag synchronously before dispatching it, the second observes
loading=true through get and skips, leaving the store unchanged. -/
theorem two_mounts_same_key_one_fetch (st : RepoStoreState) (k : String)
    (hrep : jsFalsyRepos (RepositoryStore.get st k).repositories = true)
    (hload : jsFalsyLoading (RepositoryStore.get st k).repositoriesLoading = true) :
    (fetchRepos k st).fetchIssued = true ∧
    (RepositoryStore.get (fetchRepos k st).store k).repositoriesLoading = some true ∧
    (fetchRepos k (fetchRepos k st).store).fetchIssued = false ∧
    (fetchRepos k (fetchRepos k st).store).store = (fetchRepos k st).store := by
  have hguard : (jsFalsyRepos (RepositoryStore.get st k).repositories &&
      jsFalsyLoading (RepositoryStore.get st k).repositoriesLoading) = true := by
    rw [hrep, hload]
    rfl
  have h1 : fetchRepos k st =
      { store := { st with repositoriesLoading := some true, orgSlug := some k },
        fetchIssued := true } := by
    unfold fetchRepos
    rw [if_pos hguard]
  rw [h1]
  refine ⟨rfl, ?_, ?_, ?_⟩ <;>
    simp [fetchRepos, RepositoryStore.get, jsFalsyLoading]

/-- Witness for C2: two mounts for the same key on the empty store. -/
theorem two_mounts_same_key_one_fetch_witness :
    (fetchRepos "org-a" ⟨none, none, none, none⟩).fetchIssued = true ∧
    (fetchRepos "org-a" (fetchRepos "org-a" ⟨none, none, none, none⟩).store).fetchIssued
      = false :=
  have h := two_mounts_same_key_one_fetch ⟨none, none, none, none⟩ "org-a"
    (by simp [RepositoryStore.get, jsFalsyRepos])
    (by simp [RepositoryStore.get, jsFalsyLoading])
  ⟨h.1, h.2.2.1⟩

/-- C7 counterexample scenario store: after a successful repositories load
for org-b, the single-entry store holds the org-b data under orgSlug org-b. -/
def storeAfterLoadB : RepoStoreState :=
  { orgSlug := some "org-b", repositories := some ["repo-b"],
    repositoriesLoading := some false, repositoriesError := none }

/-- C7 counterexample prior display: an instance bound to org-a that had
earlier displayed loaded org-a repositories (from a time when the store
entry carried org-a). -/
def displayOrgA : RepoData :=
  { repositories := some ["repo-a"], repositoriesLoading := some false,
    repositoriesError := none }

/-- C7 counterexample: a store update notification for key org-b changes
the displayed state of the instance bound to org-a. The store is a single
flat entry (fetchRepos writes state.orgSlug directly), so once it carries
org-b, get for org-a yields all-undefined fields and the setState spread
overwrites the previously displayed org-a data; the instance bound to a
different key is therefore not unchanged by the update. -/
theorem store_update_changes_other_key_display :
    onStoreUpdate storeAfterLoadB "org-a" displayOrgA ≠ displayOrgA := by
  decide

/-- C7 amended: on any store update notification, a decorator instance
re-reads the store entry for its own key and its displayed state becomes
exactly that entry; when the stored orgSlug is the instance key, the entry
fields are displayed, but an instance bound to any other key reads
all-undefined fields, so its displayed state is reset to undefined values
rather than left unchanged. -/
theorem store_update_rereads_own_key (st : RepoStoreState) (k : String)
    (d : RepoData) :
    onStoreUpdate st k d = RepositoryStore.get st k ∧
    (st.orgSlug = some k →
      onStoreUpdate st k d =
        { repositories := st.repositories,
          repositoriesLoading := st.repositoriesLoading,
          repositoriesError := st.repositoriesError }) ∧
    (st.orgSlug ≠ some k →
      onStoreUpdate st k d =
        { repositories := none, repositoriesLoading := none,
          repositoriesError := none }) := by
  refine ⟨rfl, ?_, ?_⟩
  · intro h
    simp [onStoreUpdate, RepositoryStore.get, h]
  · intro h
    simp [onStoreUpdate, RepositoryStore.get, h]

/-- Witness for amended C7 at a matching and at a mismatching key. -/
theorem store_update_rereads_own_key_witness :
    onStoreUpdate storeAfterLoadB "org-b" displayOrgA =
      { repositories := some ["repo-b"], repositoriesLoading := some false,
        repositoriesError := none } ∧
    onStoreUpdate storeAfterLoadB "org-a" displayOrgA =
      { repositories := none, repositoriesLoading := none,
        repositoriesError := none } := by
  constructor
  · exact (store_update_rereads_own_key storeAfterLoadB "org-b" displayOrgA).2.1 rfl
  · exact (store_update_rereads_own_key storeAfterLoadB "org-a" displayOrgA).2.2
      (by decide)

/-- A JS value appearing among the props of the wrapped component; undefined
is an explicit value, distinct from key absence. -/
inductive JsValue where
  | undef
  | repoList (rs : List Repository)
  | boolVal (b : Bool)
  | errVal (e : String)
  | strVal (s : String)
deriving DecidableEq, Repr

/-- A JS object as a partial map from keys to values; none means the key is
absent, some JsValue.undef means the key is present with value undefined. -/
def JsObject := String → Option JsValue

/-- JSX spread semantics of a component receiving two spreads in order:
keys of the later spread override those of the earlier one. -/
def spreadMerge (a b : JsObject) : JsObject :=
  fun key =>
    match b key with
    | some v => some v
    | none => a key

/-- An optional TypeScript value viewed as a JS value: undefined if absent. -/
def optToJs (f : α → JsValue) : Option α → JsValue
  | none => JsValue.undef
  | some x => f x

/-- The decorator state as the JS object spread in render: the three
injected keys are always present (getInitialState declares all three and
setState merges by key), at worst carrying the value undefined. -/
def stateObject (st : RepoData) : JsObject :=
  fun key =>
    if key = "repositories" then some (optToJs JsValue.repoList st.repositories)
    else if key = "repositoriesLoading" then
      some (optToJs JsValue.boolVal st.repositoriesLoading)
    else if key = "repositoriesError" then
      some (optToJs JsValue.errVal st.repositoriesError)
    else none

/-- render of the decorator: the wrapped component receives the incoming
props spread first and the decorator state spread second. -/
def decoratorRender (props : JsObject) (st : RepoData) : JsObject :=
  spreadMerge props (stateObject st)

/-- C10: the state spread comes after the props spread, so for each of the
three injected names the wrapped component receives the decorator state
value, and when that value is undefined (for example repositories before
any store entry exists) the caller-supplied prop of the same name is still
overridden by undefined. -/
theorem injected_state_overrides_props (props : JsObject) (st : RepoData)
    (key : String)
    (hk : key = "repositories" ∨ key = "repositoriesLoading" ∨
      key = "repositoriesError") :
    decoratorRender props st key = stateObject st key ∧
    (st.repositories = none →
      decoratorRender props st "repositories" = some JsValue.undef) := by
  constructor
  · rcases hk with h | h | h <;> subst h <;>
      simp [decoratorRender, spreadMerge, stateObject]
  · intro h
    simp [decoratorRender, spreadMerge, stateObject, h, optToJs]

/-- Caller props for the C10 witness: the caller passes its own repository
list under the repositories key. -/
def callerProps : JsObject :=
  fun key =>
    if key = "repositories" then some (JsValue.repoList ["caller-repo"])
    else none

/-- Witness for C10: the caller prop is overridden by the undefined state
value. -/
theorem injected_state_overrides_props_witness :
    decoratorRender callerProps
        { repositories := none, repositoriesLoading := none,
          repositoriesError := none } "repositories" = some JsValue.undef ∧
    callerProps "repositories" = some (JsValue.repoList ["caller-repo"]) := by
  constructor
  · exact (injected_state_overrides_props callerProps
      ⟨none, none, none⟩ "repositories" (Or.inl rfl)).2 rfl
  · rfl
